import Mathlib

/-!
# Verification of the compiler-autograder runner

A shallow embedding of the autograder's directive parser (`src/test_parser.rs`),
per-test pipeline and outcome classifier (`src/runner.rs`), and score
aggregation (`make_and_run`'s fold), with theorems checking the
natural-language specification against it.

Modelling conventions:
* A test file is represented by the list of its physical lines as
  `BufRead::read_line` would return them (each including its terminator when
  present); the wholly empty file is `[]`, since `read_line` returns `0` only
  at immediate EOF.
* Machine integers: the directive argument is Rust `i32`, modelled as `Int`
  with the explicit range check of `str::parse::<i32>`; the score counters are
  Rust `usize`, modelled as `Nat` with release-mode wrapping subtraction
  modulo `2 ^ 64` made explicit.
* External effects (the student compiler, the linker, the compiled binary) are
  an explicit environment record; `run_and_verify` is a pure function of the
  test file and that environment, returning both its result and a trace of
  which external steps it invoked.
* `f32` arithmetic in `FinalScore::to_score` is idealised over `ℚ`; the claims
  about it concern values far beyond any rounding error.
-/

/-- Enum `TestResult` from `src/test_parser.rs`: the parsed test directive. -/
inductive TestResult where
  | Ret (i : Int)
  | DivByZero
  | Abort
  | MemError
  | SourceError
  | TypeCheck
  | Compile
deriving DecidableEq, Repr

/-- Enum `TestOutcome` from `src/runner.rs`: the verdict for one test. -/
inductive TestOutcome where
  | Passed
  | TimedOut
  | Failed
deriving DecidableEq, Repr

/-- Enum `ProcessResult` from `src/runner.rs`: the interpreted termination of
the compiled test binary. -/
inductive ProcessResult where
  | Success (i : Int)
  | Failure (i : Int)
  | Timeout
  | SignalAbort
  | SignalUsr2
  | SigFpe
  | OtherSignal (i : Int)
deriving DecidableEq, Repr

/-- The distinct `bail!` / error sites of `parse_line` and `get_test_result`
in `src/test_parser.rs`; the human-readable message text is elided. -/
inductive ParseErr where
  /-- Raised when `words.len() < 2`: "Expected test directive instead got" -/
  | expected_directive
  /-- Raised when `words[0]` is not the `//test` sentinel -/
  | bad_sentinel
  /-- Raised on a `return` directive without exactly one further token
  (`words.len() != 3`) -/
  | return_arity
  /-- Raised when `words[2].parse::<i32>()` failed -/
  | bad_int
  /-- Raised when `words[1]` is not a recognized directive kind -/
  | unknown_kind
deriving DecidableEq, Repr

/-- Accumulator pass behind `split_whitespace`: `acc` holds the pending token
in reverse; whitespace flushes it, other characters extend it. -/
def split_ws_aux : List Char → List Char → List String
  | [], acc => if acc.isEmpty then [] else [String.mk acc.reverse]
  | c :: cs, acc =>
    if c.isWhitespace then
      if acc.isEmpty then split_ws_aux cs []
      else String.mk acc.reverse :: split_ws_aux cs []
    else split_ws_aux cs (c :: acc)

/-- Rust's `str::split_whitespace`: the maximal whitespace-free tokens of the
string, in order (ASCII whitespace suffices for the inputs at hand). -/
def split_whitespace (s : String) : List String :=
  split_ws_aux s.data []

/-- Rust's `str::parse::<i32>`: an optional single `+`/`-` sign followed by
one or more ASCII digits, with the value required to fit in `i32`. -/
def parseI32 (s : String) : Option Int :=
  let signDigits : Int × List Char :=
    match s.data with
    | '+' :: rest => (1, rest)
    | '-' :: rest => (-1, rest)
    | l => (1, l)
  let sign := signDigits.1
  let digits := signDigits.2
  if digits.isEmpty then none
  else if digits.all fun c => c.isDigit then
    let n : Nat := digits.foldl (fun acc c => acc * 10 + (c.toNat - '0'.toNat)) 0
    let v : Int := sign * (n : Int)
    if -(2 ^ 31) ≤ v ∧ v ≤ 2 ^ 31 - 1 then some v else none
  else none

/-- The token-level body of `parse_line` (`src/test_parser.rs:51`), applied to
`first_line.split_whitespace().collect()`. The checks appear in source
order: length `< 2`, the `//test` sentinel, then the match on `words[1]`,
where only `return` constrains the remaining tokens. -/
def parse_words : List String → Except ParseErr TestResult
  | [] => .error .expected_directive
  | [_] => .error .expected_directive
  | w0 :: w1 :: rest =>
    if w0 ≠ "//test" then .error .bad_sentinel
    else if w1 = "return" then
      match rest with
      | [arg] =>
        match parseI32 arg with
        | some v => .ok (.Ret v)
        | none => .error .bad_int
      | _ => .error .return_arity
    else if w1 = "div-by-zero" then .ok .DivByZero
    else if w1 = "abort" then .ok .Abort
    else if w1 = "memerror" then .ok .MemError
    else if w1 = "error" then .ok .SourceError
    else if w1 = "typecheck" then .ok .TypeCheck
    else if w1 = "compile" then .ok .Compile
    else .error .unknown_kind

/-- Function `parse_line` from `src/test_parser.rs:51`: tokenize the first
line on whitespace and parse the tokens. -/
def parse_line (first_line : String) : Except ParseErr TestResult :=
  parse_words (split_whitespace first_line)

/-- The result of a step that may, besides succeeding or failing, terminate
the whole process (`std::process::exit`). -/
inductive Step (ε α : Type) where
  | exit (code : Nat)
  | err (e : ε)
  | ok (v : α)
deriving DecidableEq, Repr

/-- Function `get_line` from `src/test_parser.rs:37` on a file given as its list of
physical lines: `read_line` returns `0` bytes only at immediate EOF, i.e. on
the wholly empty file, and there the code calls `std::process::exit(0)`;
otherwise the first line is returned. -/
def get_line : List String → Step ParseErr String
  | [] => .exit 0
  | l :: _ => .ok l

/-- Function `get_test_result` from `src/test_parser.rs:26`: read the first line and
parse it (the `File::open` I/O error path is outside the model). -/
def get_test_result (file : List String) : Step ParseErr TestResult :=
  match get_line file with
  | .exit c => .exit c
  | .err e => .err e
  | .ok l =>
    match parse_line l with
    | .ok r => .ok r
    | .error e => .err e

/-- The outcome-classification match of `run_and_verify`
(`src/runner.rs:232`–`257`), with its arms in source order. -/
def classify : TestResult → ProcessResult → TestOutcome
  | .Ret r, .Success o => if r = o then .Passed else .Failed
  | .Abort, .SignalAbort => .Passed
  | .MemError, .SignalUsr2 => .Passed
  | .DivByZero, .SigFpe => .Passed
  | _, .Timeout => .TimedOut
  | _, _ => .Failed

/-- How `wait_timeout` on the spawned binary can end: deadline expiry, a
normal exit with some code, or death by a signal. -/
inductive WaitResult where
  | timed_out
  | exited (code : Int)
  | signaled (sig : Int)
deriving DecidableEq, Repr

/-- Signal number of `libc::SIGABRT` on Linux. -/
def SIGABRT : Int := 6
/-- Signal number of `libc::SIGFPE` on Linux. -/
def SIGFPE : Int := 8
/-- Signal number of `libc::SIGUSR2` on Linux. -/
def SIGUSR2 : Int := 12

/-- The behaviour of the external processes one `run_and_verify` invocation
can observe: the student compiler's and the linker's exit status, and how the
compiled binary terminates, with its standard-output lines. -/
structure Env where
  compiler_success : Bool
  link_success : Bool
  wait : WaitResult
  stdout_lines : List String
deriving DecidableEq, Repr

/-- The error ends of `run_and_verify` (`src/runner.rs:124`–`258`); each
constructor is one `bail!` / `Err` / `?` site, message text elided. -/
inductive RunErr where
  /-- Case where `get_test_result` failed, with the "failed to parse" context -/
  | parse_failed (e : ParseErr)
  /-- Case of a `SourceError` directive where the compiler succeeded:
  `Err(TestFailure::CompileFailure)` -/
  | compile_failure_on_source_error
  /-- Case of a non-`SourceError` directive where the compiler failed:
  `bail!("Student compiler failed")` -/
  | compiler_failed
  /-- Case where linking failed: "Failed to link" -/
  | link_failed
  /-- Case of exit 0 with no stdout line: "No output" -/
  | no_output
  /-- Case of exit 0 where the last stdout line is not an `i32` -/
  | output_not_int
deriving DecidableEq, Repr

/-- Interpretation of the spawned binary's termination into a
`ProcessResult` (`src/runner.rs:201`–`230`): exit 0 recovers the last stdout
line as an `i32`; a nonzero exit code is `Failure`; signals are decoded; the
deadline expiry is `Timeout` after kill and reap. -/
def execution_result (env : Env) : Except RunErr ProcessResult :=
  match env.wait with
  | .timed_out => .ok .Timeout
  | .exited code =>
    if code = 0 then
      match env.stdout_lines.getLast? with
      | none => .error .no_output
      | some l =>
        match parseI32 l with
        | some v => .ok (.Success v)
        | none => .error .output_not_int
    else .ok (.Failure code)
  | .signaled s =>
    .ok (if s = SIGABRT then .SignalAbort
      else if s = SIGFPE then .SigFpe
      else if s = SIGUSR2 then .SignalUsr2
      else .OtherSignal s)

/-- Which external steps one `run_and_verify` invocation actually executed. -/
structure Trace where
  invoked_compiler : Bool
  invoked_linker : Bool
  spawned_binary : Bool
deriving DecidableEq, Repr

/-- Function `run_and_verify` from `src/runner.rs:124`–`258` as a pure function of the
test file's lines and the external-process behaviour, paired with the trace
of the steps it ran: parse the directive, invoke the compiler, special-case
`SourceError`, otherwise require compiler success, link, run the binary under
the deadline, and classify. -/
def run_and_verify (file : List String) (env : Env) :
    Step RunErr TestOutcome × Trace :=
  match get_test_result file with
  | .exit c => (.exit c, ⟨false, false, false⟩)
  | .err e => (.err (.parse_failed e), ⟨false, false, false⟩)
  | .ok intended =>
    if intended = .SourceError then
      if !env.compiler_success then (.ok .Passed, ⟨true, false, false⟩)
      else (.err .compile_failure_on_source_error, ⟨true, false, false⟩)
    else if !env.compiler_success then (.err .compiler_failed, ⟨true, false, false⟩)
    else if !env.link_success then (.err .link_failed, ⟨true, true, false⟩)
    else
      match execution_result env with
      | .error e => (.err e, ⟨true, true, true⟩)
      | .ok pr => (.ok (classify intended pr), ⟨true, true, true⟩)

/-- Structure `FinalScore` from `src/runner.rs:54`: the three verdict counters, each a
Rust `usize`. -/
structure FinalScore where
  passed : Nat
  failed : Nat
  timeout : Nat
deriving DecidableEq, Repr

/-- One more than `usize::MAX`. -/
def USIZE_MOD : Nat := 2 ^ 64

/-- Release-mode Rust `usize` subtraction: two's-complement wrap modulo
`2 ^ 64` (a debug build would instead panic on underflow). -/
def usize_sub (a b : Nat) : Nat :=
  (a % USIZE_MOD + (USIZE_MOD - b % USIZE_MOD)) % USIZE_MOD

/-- Method `FinalScore::to_score` from `src/runner.rs:62`:
`((passed - failed) as f32) + (timeout as f32) * 0.1`, idealised over `ℚ`;
the `usize` subtraction keeps its wrapping semantics. -/
def FinalScore.to_score (s : FinalScore) : ℚ :=
  (usize_sub s.passed s.failed : ℚ) + (s.timeout : ℚ) * (1 / 10)

/-- One step of the scores fold in `make_and_run` (`src/runner.rs:281`–`289`):
`Ok(Passed)` bumps `passed`, `Ok(TimedOut)` bumps `timeout`, and
`Ok(Failed) | _` — so every `Err` as well — bumps `failed`. -/
def score_step (acc : FinalScore) (e : Except RunErr TestOutcome) : FinalScore :=
  match e with
  | .ok .Passed => { acc with passed := acc.passed + 1 }
  | .ok .TimedOut => { acc with timeout := acc.timeout + 1 }
  | _ => { acc with failed := acc.failed + 1 }

/-- The aggregation fold of `make_and_run` over the per-test results, started
from `FinalScore::default()`. -/
def fold_scores (rs : List (Except RunErr TestOutcome)) : FinalScore :=
  rs.foldl score_step ⟨0, 0, 0⟩


/-- Test for the results that the aggregation fold counts as passed. -/
def counts_passed : Except RunErr TestOutcome → Bool
  | .ok .Passed => true
  | _ => false

/-- Test for the results that the aggregation fold counts as timed out. -/
def counts_timeout : Except RunErr TestOutcome → Bool
  | .ok .TimedOut => true
  | _ => false

/-- Test for the results that the aggregation fold counts as failed: an
explicit `Failed` verdict or any error, via the `Ok(Failed) | _` arm. -/
def counts_failed : Except RunErr TestOutcome → Bool
  | .ok .Passed => false
  | .ok .TimedOut => false
  | _ => true

/-- Rust `process_files_parallel` from `src/runner_file_utils.rs:33`: one
result per collected file, in file order (`par_iter().map().collect()`). -/
def process_files_parallel {α R : Type} (files : List α) (process_file : α → R) :
    List R :=
  files.map process_file

/-- The spec's stated success condition for a directive token list: token 0
is the sentinel `//test`, token 1 names a known directive kind, and a
`return` directive carries exactly one further token that parses as an
`i32`. Stated from the spec's words, for comparison with `parse_words`. -/
def directive_tokens_ok : List String → Prop
  | w0 :: w1 :: rest =>
    w0 = "//test" ∧
      ((w1 = "return" ∧ ∃ a, rest = [a] ∧ (parseI32 a).isSome) ∨
        w1 ∈ (["div-by-zero", "abort", "memerror", "error", "typecheck",
          "compile"] : List String))
  | _ => False

/-- Characterization of one fold step in terms of the three counters. -/
theorem foldl_score_step_eq (rs : List (Except RunErr TestOutcome)) :
    ∀ acc : FinalScore,
      rs.foldl score_step acc =
        ⟨acc.passed + rs.countP counts_passed,
          acc.failed + rs.countP counts_failed,
          acc.timeout + rs.countP counts_timeout⟩ := by
  induction rs with
  | nil => intro acc; simp [List.countP_nil]
  | cons e rs ih =>
    intro acc
    rw [List.foldl_cons, ih]
    rcases e with e | t
    · simp [score_step, counts_passed, counts_failed, counts_timeout,
        List.countP_cons]
      omega
    · cases t <;>
        simp [score_step, counts_passed, counts_failed, counts_timeout,
          List.countP_cons] <;>
        omega

/-- C1: the outcome classifier is a pure function of (directive, process
outcome) implementing exactly the spec's table: `Return(r)` with a successful
run recovering `o` yields `Passed` iff `r = o` and `Failed` otherwise;
`Abort`/`SIGABRT`, `MemError`/`SIGUSR2` and `DivByZero`/`SIGFPE` yield
`Passed`; any directive paired with a timeout yields `TimedOut`; and every
other pair yields `Failed`. -/
theorem classify_implements_table :
    (∀ r o, classify (.Ret r) (.Success o) =
      if r = o then .Passed else .Failed)
    ∧ classify .Abort .SignalAbort = .Passed
    ∧ classify .MemError .SignalUsr2 = .Passed
    ∧ classify .DivByZero .SigFpe = .Passed
    ∧ (∀ d, classify d .Timeout = .TimedOut)
    ∧ (∀ d o, (∀ r v, ¬(d = .Ret r ∧ o = .Success v)) →
        ¬(d = .Abort ∧ o = .SignalAbort) →
        ¬(d = .MemError ∧ o = .SignalUsr2) →
        ¬(d = .DivByZero ∧ o = .SigFpe) →
        o ≠ .Timeout →
        classify d o = .Failed) := by
  refine ⟨fun r o => rfl, rfl, rfl, rfl, fun d => by cases d <;> rfl, ?_⟩
  intro d o h1 h2 h3 h4 h5
  cases o with
  | Timeout => exact absurd rfl h5
  | Success v =>
    cases d with
    | Ret r => exact absurd (And.intro rfl rfl) (h1 r v)
    | DivByZero => rfl
    | Abort => rfl
    | MemError => rfl
    | SourceError => rfl
    | TypeCheck => rfl
    | Compile => rfl
  | SignalAbort =>
    cases d with
    | Abort => exact absurd (And.intro rfl rfl) h2
    | Ret r => rfl
    | DivByZero => rfl
    | MemError => rfl
    | SourceError => rfl
    | TypeCheck => rfl
    | Compile => rfl
  | SignalUsr2 =>
    cases d with
    | MemError => exact absurd (And.intro rfl rfl) h3
    | Ret r => rfl
    | DivByZero => rfl
    | Abort => rfl
    | SourceError => rfl
    | TypeCheck => rfl
    | Compile => rfl
  | SigFpe =>
    cases d with
    | DivByZero => exact absurd (And.intro rfl rfl) h4
    | Ret r => rfl
    | Abort => rfl
    | MemError => rfl
    | SourceError => rfl
    | TypeCheck => rfl
    | Compile => rfl
  | Failure c => cases d <;> rfl
  | OtherSignal s => cases d <;> rfl

/-- Witness for C1: the catch-all row of the table at a concrete pair. -/
theorem classify_implements_table_witness :
    classify .TypeCheck (.Success 0) = .Failed :=
  classify_implements_table.2.2.2.2.2 .TypeCheck (.Success 0)
    (fun _ _ h => TestResult.noConfusion h.1)
    (fun h => TestResult.noConfusion h.1)
    (fun h => TestResult.noConfusion h.1)
    (fun h => TestResult.noConfusion h.1)
    (fun h => ProcessResult.noConfusion h)

/-- C10: for every non-return directive kind the parser ignores any extra
trailing tokens on the directive line, whereas a `return` directive with
more than one trailing token is rejected. -/
theorem non_return_kinds_ignore_trailing :
    (∀ extra, parse_words ("//test" :: "div-by-zero" :: extra) = .ok .DivByZero)
    ∧ (∀ extra, parse_words ("//test" :: "abort" :: extra) = .ok .Abort)
    ∧ (∀ extra, parse_words ("//test" :: "memerror" :: extra) = .ok .MemError)
    ∧ (∀ extra, parse_words ("//test" :: "error" :: extra) = .ok .SourceError)
    ∧ (∀ extra, parse_words ("//test" :: "typecheck" :: extra) = .ok .TypeCheck)
    ∧ (∀ extra, parse_words ("//test" :: "compile" :: extra) = .ok .Compile)
    ∧ (∀ t1 t2 extra,
        parse_words ("//test" :: "return" :: t1 :: t2 :: extra) =
          .error .return_arity) :=
  ⟨fun _ => rfl, fun _ => rfl, fun _ => rfl, fun _ => rfl, fun _ => rfl,
    fun _ => rfl, fun _ _ _ => rfl⟩

/-- Success characterization of `parse_words`: it returns a directive exactly
on the token lists the spec admits. -/
theorem parse_words_ok_iff (w : List String) :
    (∃ t, parse_words w = .ok t) ↔ directive_tokens_ok w := by
  match w with
  | [] => simp [parse_words, directive_tokens_ok]
  | [w0] => simp [parse_words, directive_tokens_ok]
  | w0 :: w1 :: rest =>
    simp only [parse_words, directive_tokens_ok]
    rcases eq_or_ne w0 "//test" with h0 | h0
    · subst h0
      simp only [ne_eq, not_true_eq_false, if_false, true_and]
      by_cases h1 : w1 = "return"
      · subst h1
        simp only [if_pos rfl]
        match rest with
        | [] => simp
        | [a] =>
          cases hp : parseI32 a with
          | none => simp [hp]
          | some v => simp [hp]
        | a :: b :: rest' => simp
      · rw [if_neg h1]
        by_cases h2 : w1 = "div-by-zero"
        · subst h2; simp
        · rw [if_neg h2]
          by_cases h3 : w1 = "abort"
          · subst h3; simp
          · rw [if_neg h3]
            by_cases h4 : w1 = "memerror"
            · subst h4; simp
            · rw [if_neg h4]
              by_cases h5 : w1 = "error"
              · subst h5; simp
              · rw [if_neg h5]
                by_cases h6 : w1 = "typecheck"
                · subst h6; simp
                · rw [if_neg h6]
                  by_cases h7 : w1 = "compile"
                  · subst h7; simp
                  · rw [if_neg h7]
                    simp [h1, h2, h3, h4, h5, h6, h7]
    · simp [if_pos h0, h0]

/-- C6: directive-line parsing succeeds exactly when token 0 equals the
sentinel `//test`, token 1 names a known directive kind, and a `return`
directive carries exactly one further token parsing as a 32-bit signed
integer; in particular `//test return 52` parses to `Ret 52` and
`//test div-by-zero` to `DivByZero`, while `//test return` and
`//nope return 1` are parse failures. -/
theorem parse_line_success_characterization :
    (∀ w, (∃ t, parse_words w = .ok t) ↔ directive_tokens_ok w)
    ∧ parse_line "//test return 52" = .ok (.Ret 52)
    ∧ parse_line "//test div-by-zero" = .ok .DivByZero
    ∧ parse_line "//test return" = .error .return_arity
    ∧ parse_line "//nope return 1" = .error .bad_sentinel :=
  ⟨parse_words_ok_iff, rfl, rfl, rfl, rfl⟩

/-- C5 counterexample: a file whose first line is blank and whose second line
carries a well-formed directive is a parse failure, not a success — the
parser does not skip to the first non-empty line. -/
theorem blank_first_line_parse_fails :
    get_test_result ["\n", "//test compile"] = .err .expected_directive
    ∧ get_test_result ["\n", "//test compile"] ≠ .ok .Compile :=
  ⟨rfl, fun h => Step.noConfusion h⟩

/-- C5 (amended): the directive parser reads only the first line of the test
file — the outcome on `l :: rest` is independent of `rest`, and when the
first line is empty or whitespace-only the parse fails regardless of any
well-formed directive on a later line. -/
theorem parse_reads_first_line_only :
    (∀ (l : String) (rest₁ rest₂ : List String),
      get_test_result (l :: rest₁) = get_test_result (l :: rest₂))
    ∧ (∀ (l : String) (rest : List String), split_whitespace l = [] →
        get_test_result (l :: rest) = .err .expected_directive) := by
  constructor
  · intro l rest₁ rest₂; rfl
  · intro l rest h
    simp only [get_test_result, get_line, parse_line, h, parse_words]

/-- Witness for C5 (amended), at a blank first line followed by a
well-formed directive line. -/
theorem parse_reads_first_line_only_witness :
    split_whitespace "\n" = ([] : List String)
    ∧ get_test_result ["\n", "//test compile"] = .err .expected_directive :=
  ⟨rfl, parse_reads_first_line_only.2 "\n" ["//test compile"] rfl⟩

/-- C4 counterexample: on a wholly empty test file, `run_and_verify` ends in
`std::process::exit(0)` — terminating the whole run — rather than in a
locally-caught error. -/
theorem empty_file_exits_process :
    run_and_verify [] ⟨true, true, .exited 0, ["0"]⟩
      = (.exit 0, ⟨false, false, false⟩) := rfl

/-- C4 (amended): every per-test failure on a nonempty test file is caught
locally — `run_and_verify` never reaches the process-exit path there — and
each error result is converted by the aggregation fold into a `failed` count
for that test alone; only the wholly empty file triggers the process exit. -/
theorem nonempty_file_errors_recovered :
    (∀ (file : List String) (env : Env) (c : Nat), file ≠ [] →
      (run_and_verify file env).1 ≠ .exit c)
    ∧ (∀ e, fold_scores [.error e] = ⟨0, 1, 0⟩) := by
  constructor
  · intro file env c hne
    cases file with
    | nil => exact absurd rfl hne
    | cons l rest =>
      simp only [run_and_verify, get_test_result, get_line]
      cases hp : parse_line l with
      | error e => simp
      | ok intended =>
        by_cases hs : intended = TestResult.SourceError
        · cases hc : env.compiler_success <;> simp [hs, hc]
        · cases hc : env.compiler_success with
          | false => simp [hs, hc]
          | true =>
            cases hl : env.link_success with
            | false => simp [hs, hc, hl]
            | true =>
              rcases he : execution_result env with e | pr <;>
                simp [hs, hc, hl, he]
  · intro e; rfl

/-- Witness for C4 (amended): a concrete nonempty file whose parse fails. -/
theorem nonempty_file_errors_recovered_witness :
    (["garbage"] : List String) ≠ []
    ∧ (run_and_verify ["garbage"] ⟨true, true, .timed_out, []⟩).1 ≠ .exit 0 :=
  ⟨fun h => List.noConfusion h,
    nonempty_file_errors_recovered.1 ["garbage"] ⟨true, true, .timed_out, []⟩ 0
      (fun h => List.noConfusion h)⟩

/-- C7: for a `SourceError` directive the pipeline stops right after the
compiler under test: the verdict is `Passed` exactly when the compiler
failed, the error raised when it succeeded is folded into a `failed` count,
and neither the linker nor the compiled binary is invoked. -/
theorem source_error_stops_after_compile :
    (∀ (file : List String) (env : Env),
      get_test_result file = .ok .SourceError →
      run_and_verify file env =
        (if env.compiler_success then .err .compile_failure_on_source_error
          else .ok .Passed,
          ⟨true, false, false⟩))
    ∧ fold_scores [.ok .Passed] = ⟨1, 0, 0⟩
    ∧ fold_scores [.error .compile_failure_on_source_error] = ⟨0, 1, 0⟩ := by
  refine ⟨?_, rfl, rfl⟩
  intro file env h
  simp only [run_and_verify, h]
  cases hc : env.compiler_success <;> simp [hc]

/-- Witness for C7 at the file `//test error` with a succeeding compiler. -/
theorem source_error_stops_after_compile_witness :
    get_test_result ["//test error"] = .ok .SourceError
    ∧ run_and_verify ["//test error"] ⟨true, true, .exited 0, ["0"]⟩
      = (.err .compile_failure_on_source_error, ⟨true, false, false⟩) :=
  ⟨rfl, by
    simpa using
      source_error_stops_after_compile.1 ["//test error"]
        ⟨true, true, .exited 0, ["0"]⟩ rfl⟩

/-- C2: contrary to the spec, the code does not stop after compilation for a
`TypeCheck` or `Compile` directive — there is no such branch in
`run_and_verify` — so with a succeeding compiler, linker and cleanly exiting
binary the pipeline invokes the linker and the binary and lands in the
classifier's catch-all arm, yielding `Failed` although the compiler under
test succeeded. -/
theorem typecheck_compile_not_short_circuited :
    run_and_verify ["//test typecheck"] ⟨true, true, .exited 0, ["0"]⟩
      = (.ok .Failed, ⟨true, true, true⟩)
    ∧ run_and_verify ["//test compile"] ⟨true, true, .exited 0, ["0"]⟩
      = (.ok .Failed, ⟨true, true, true⟩) :=
  ⟨rfl, rfl⟩

/-- C3: `FinalScore::to_score` subtracts the `usize` counters, so with
`failed > passed` it underflows instead of producing the spec's
`passed − failed + 0.1 × timedOut`: at `{passed := 0, failed := 1,
timeout := 0}` the release-mode wrap yields `2 ^ 64 − 1`, not `−1` (a debug
build would panic at the same input). -/
theorem to_score_underflows_on_more_failures :
    FinalScore.to_score ⟨0, 1, 0⟩ = ((2 ^ 64 - 1 : ℕ) : ℚ)
    ∧ FinalScore.to_score ⟨0, 1, 0⟩ ≠ (0 : ℚ) - 1 + (1 / 10) * 0 := by
  constructor
  · norm_num [FinalScore.to_score, usize_sub, USIZE_MOD]
  · norm_num [FinalScore.to_score, usize_sub, USIZE_MOD]

/-- C8: aggregation of verdicts into `FinalScore` is order-independent — any
permutation of the result list folds to the same counts. -/
theorem fold_scores_perm_invariant :
    ∀ rs rs' : List (Except RunErr TestOutcome), rs.Perm rs' →
      fold_scores rs = fold_scores rs' := by
  intro rs rs' h
  rw [fold_scores, fold_scores, foldl_score_step_eq, foldl_score_step_eq,
    h.countP_eq, h.countP_eq, h.countP_eq]

/-- Witness for C8 on a concrete two-element swap. -/
theorem fold_scores_perm_invariant_witness :
    fold_scores [.ok .Passed, .error .compiler_failed]
      = fold_scores [.error .compiler_failed, .ok .Passed] :=
  fold_scores_perm_invariant _ _ (List.Perm.swap _ _ _)

/-- C9: the counts in the folded `FinalScore` always sum to the number of
files processed — every per-file result, errors included, increments exactly
one of the three counters. -/
theorem score_counts_sum_to_files :
    ∀ (files : List (List String))
      (f : List String → Except RunErr TestOutcome),
      (fold_scores (process_files_parallel files f)).passed
        + (fold_scores (process_files_parallel files f)).failed
        + (fold_scores (process_files_parallel files f)).timeout
      = files.length := by
  intro files f
  rw [fold_scores, foldl_score_step_eq]
  have hlen : ∀ rs : List (Except RunErr TestOutcome),
      rs.countP counts_passed + rs.countP counts_failed
        + rs.countP counts_timeout = rs.length := by
    intro rs
    induction rs with
    | nil => rfl
    | cons e rs ih =>
      rcases e with e | t
      · simp [List.countP_cons, counts_passed, counts_failed, counts_timeout]
        omega
      · cases t <;>
          simp [List.countP_cons, counts_passed, counts_failed,
            counts_timeout] <;>
          omega
  simpa [process_files_parallel] using
    hlen (files.map f)
